import Mathlib

/-
Verification of the CodeforcesAPI client (src/api/codeforces_api.py).

The development shallowly embeds the two layers of the client:
  - the transport layer (`CodeforcesDataRetriever`): URL generation from a
    method name and named parameters, and the JSON envelope check
    `__check_json`;
  - the facade layer (`CodeforcesAPI`): per-method argument validation and
    the mapping of the JSON result onto typed records.
The network call itself (`urllib.request.urlopen`) is external I/O; the
embedding models everything up to the generated URL on the request side and
everything from the parsed JSON body on the response side.
-/

namespace CF

/-- Parsed JSON values, as produced by Python's `json.loads`.  Objects are
association lists in insertion order (Python dicts preserve insertion order
and `json.loads` keeps the last duplicate, so keys are unique). Numbers are
modelled as integers; no claim depends on float payloads. -/
inductive Json where
  | null
  | bool (b : Bool)
  | num (n : Int)
  | str (s : String)
  | arr (elems : List Json)
  | obj (fields : List (String × Json))

/-- Lookup of a key in a JSON object's field list (Python `dict` lookup;
keys are unique, so the first binding is the binding). -/
def dictGet (fields : List (String × Json)) (k : String) : Option Json :=
  (fields.find? (fun kv => kv.1 == k)).map (fun kv => kv.2)

/-- Python exceptions raised by the embedded code paths. `valueError` models
`ValueError(comment)`; `missedField f` models
`ValueError('Missed required field', f)`; `keyError` models `KeyError`;
`typeError` models `TypeError`; `assertionError` models `AssertionError`. -/
inductive PyError where
  | valueError (comment : Json)
  | missedField (field : String)
  | keyError (field : String)
  | typeError (msg : String)
  | assertionError (msg : String)

/-- Python subscripting `v[k]` with a string key: on a dict, lookup raising
`KeyError` when the key is absent; on any other JSON value, `TypeError`. -/
def subscript (v : Json) (k : String) : Except PyError Json :=
  match v with
  | Json.obj fields =>
    match dictGet fields k with
    | some x => Except.ok x
    | none => Except.error (PyError.keyError k)
  | _ => Except.error (PyError.typeError "value is not subscriptable")

/-- Python comparison `value == 'OK'`: only the string "OK" compares equal. -/
def isOKStatus : Json → Bool
  | Json.str s => s == "OK"
  | _ => false

/-- Embedding of `CodeforcesDataRetriever.__check_json` (the parsing by
`json.loads` has already happened; `values` is the parsed body):

    try:
        if values['status'] == 'OK':
            return values['result']
        else:
            raise ValueError(values['comment'])
    except KeyError as e:
        raise ValueError('Missed required field', e.args[0])

The `try` block is the inner `body`; the `except KeyError` clause is the
outer match, which rewraps exactly the `keyError` outcomes. -/
def check_json (values : Json) : Except PyError Json :=
  let body : Except PyError Json := do
    let s ← subscript values "status"
    if isOKStatus s then
      subscript values "result"
    else do
      let c ← subscript values "comment"
      Except.error (PyError.valueError c)
  match body with
  | Except.error (PyError.keyError k) => Except.error (PyError.missedField k)
  | other => other

/-- The two supported locales, embedding `class CodeforcesLanguage(Enum)`. -/
inductive CodeforcesLanguage where
  | en
  | ru
deriving DecidableEq

/-- Per-client state of `CodeforcesDataRetriever`: after `__init__`, the
only instance attribute that is not a constant table is `_language`
(`_base_from_language` is a fixed two-entry dictionary, folded into
`CodeforcesDataRetriever.base` below). -/
structure CodeforcesDataRetriever where
  language : CodeforcesLanguage
deriving DecidableEq

/-- Embedding of the `base` property: the constant
`_base_from_language` table indexed by the current language. -/
def CodeforcesDataRetriever.base (r : CodeforcesDataRetriever) : String :=
  match r.language with
  | CodeforcesLanguage.en => "http://codeforces.com/api/"
  | CodeforcesLanguage.ru => "http://codeforces.ru/api/"

/-- Python values passed as HTTP parameters to the transport layer: `None`,
integers, strings, booleans, and lists of strings (the only list payloads
the facade passes are handle/tag lists). -/
inductive PyValue where
  | none
  | int (n : Int)
  | str (s : String)
  | bool (b : Bool)
  | strList (xs : List String)
deriving DecidableEq

/-- Embedding of `__get_valid_args`: keep exactly the parameters whose
value `is not None` (kwargs are an insertion-ordered association list). -/
def get_valid_args (kwargs : List (String × PyValue)) : List (String × PyValue)  :=
  kwargs.filter (fun kv => decide (kv.2 ≠ PyValue.none))

/-- Python `str()` applied to a parameter value. Lean's `toString` on `Int`
agrees with Python decimal rendering; Python booleans print capitalized. -/
def pyStr : PyValue → String
  | PyValue.none => "None"
  | PyValue.int n => toString n
  | PyValue.str s => s
  | PyValue.bool b => if b then "True" else "False"
  | PyValue.strList xs =>
    "[" ++ String.intercalate ", " (xs.map (fun s => "\x27" ++ s ++ "\x27")) ++ "]"

/-- Embedding of `__key_value_to_http_parameter`: a list value becomes the
elements joined with ";", any other value goes through `str()`; the result
is `key=value`. -/
def key_value_to_http_parameter (kv : String × PyValue) : String :=
  match kv.2 with
  | PyValue.strList xs => kv.1 ++ "=" ++ String.intercalate ";" xs
  | v => kv.1 ++ "=" ++ pyStr v

/-- Embedding of `__generate_url`: base plus method name; when kwargs were
given (even if all of them are None), a "?" and the "&"-joined serialized
valid (non-None) parameters. -/
def generate_url (base method : String) (kwargs : List (String × PyValue)) : String :=
  if kwargs.isEmpty then
    base ++ method
  else
    base ++ method ++ "?"
      ++ String.intercalate "&" ((get_valid_args kwargs).map key_value_to_http_parameter)

/-- Embedding of `get_data` up to the network boundary: the pair of the URL
handed to `urllib.request.urlopen` and the retriever state after the call
(the method body reads `self.base` and assigns nothing). -/
def get_data_request (r : CodeforcesDataRetriever) (method : String)
    (kwargs : List (String × PyValue)) : String × CodeforcesDataRetriever :=
  (generate_url r.base method kwargs, r)

/-- Argument accepted by the `language` property setter, which takes a
`CodeforcesLanguage` or a `str` (`assert isinstance(value, (CodeforcesLanguage, str))`). -/
inductive LanguageArg where
  | lang (l : CodeforcesLanguage)
  | str (s : String)

/-- Embedding of the `language` property setter: it assigns
`self._language = CodeforcesLanguage(value)`. The enum constructor maps the
enum itself and the member values "en"/"ru"; any other string raises
`ValueError`, any other type fails the `assert`. -/
def set_language (r : CodeforcesDataRetriever) (v : LanguageArg) :
    Except PyError CodeforcesDataRetriever :=
  match v with
  | LanguageArg.lang l => Except.ok { r with language := l }
  | LanguageArg.str s =>
    if s = "en" then Except.ok { r with language := CodeforcesLanguage.en }
    else if s = "ru" then Except.ok { r with language := CodeforcesLanguage.ru }
    else Except.error (PyError.valueError (Json.str s))

/-- The facade `CodeforcesAPI`: its only attribute is the retriever built
in `__init__`. -/
structure CodeforcesAPIClient where
  data_retriever : CodeforcesDataRetriever
deriving DecidableEq

/-- Python `isinstance(v, int)` over the parameter values; Python booleans
are instances of `int`. -/
def isinstance_int : PyValue → Bool
  | PyValue.int _ => true
  | PyValue.bool _ => true
  | _ => false

/-- Python `isinstance(v, list)` over the parameter values. -/
def isinstance_list : PyValue → Bool
  | PyValue.strList _ => true
  | _ => false

/-- Python `v is None` over the parameter values. -/
def isNone : PyValue → Bool
  | PyValue.none => true
  | _ => false

/-- Python `len(v)` over the parameter values: defined on lists and
strings, a `TypeError` on anything else — in particular on `None`. -/
def pyLen : PyValue → Except PyError Nat
  | PyValue.strList xs => Except.ok xs.length
  | PyValue.str s => Except.ok s.length
  | _ => Except.error (PyError.typeError "object has no len()")

/-- Embedding of the assertion prologue of `CodeforcesAPI.contest_standings`,
in source order:

    assert isinstance(contest_id, int), ...
    assert isinstance(from_, int), ...
    assert isinstance(count, int) or count is None, ...
    assert isinstance(handles, list) or handles is None, ...
    assert len(handles) <= 10000, 'No more than 10000 handles is accepted'

The last line calls `len(handles)` unconditionally, so it raises
`TypeError` when `handles` is `None` (the default). -/
def contest_standings_validate (contest_id from_ count handles : PyValue) :
    Except PyError Unit :=
  if isinstance_int contest_id = false then
    Except.error (PyError.assertionError "contest_id should be of type int")
  else if isinstance_int from_ = false then
    Except.error (PyError.assertionError "from_ should be of type int")
  else if (isinstance_int count || isNone count) = false then
    Except.error (PyError.assertionError "count should be of type int")
  else if (isinstance_list handles || isNone handles) = false then
    Except.error (PyError.assertionError "handles should be of type list of str")
  else
    match pyLen handles with
    | Except.error e => Except.error e
    | Except.ok n =>
      if n ≤ 10000 then Except.ok ()
      else Except.error (PyError.assertionError "No more than 10000 handles is accepted")

/-- Embedding of `CodeforcesAPI.contest_standings` up to the network
boundary: run the assertions, then hand the generated URL to the transport.
An `ok` result is the URL `get_data` would fetch; an `error` result means
the method raised before any network call. The kwargs keep the call's
keyword order, with the reserved word `from` merged last via `**`. -/
def contest_standings_request (api : CodeforcesAPIClient)
    (contest_id from_ count handles : PyValue) : Except PyError String :=
  match contest_standings_validate contest_id from_ count handles with
  | Except.error e => Except.error e
  | Except.ok _ =>
    Except.ok (generate_url api.data_retriever.base "contest.standings"
      [("contestId", contest_id), ("count", count),
       ("handles", handles), ("from", from_)])

/-- Embedding of the assertion prologue of `CodeforcesAPI.user_info`: the
single statement `assert isinstance(handles, list)` (no message, and no
bound on the list length). -/
def user_info_validate (handles : PyValue) : Except PyError Unit :=
  if isinstance_list handles = false then
    Except.error (PyError.assertionError "")
  else
    Except.ok ()

/-- Embedding of `CodeforcesAPI.user_info` up to the network boundary. -/
def user_info_request (api : CodeforcesAPIClient) (handles : PyValue) :
    Except PyError String :=
  match user_info_validate handles with
  | Except.error e => Except.error e
  | Except.ok _ =>
    Except.ok (generate_url api.data_retriever.base "user.info"
      [("handles", handles)])

/-- A result of a facade request that is a local validation failure
(a raised `AssertionError`). -/
def isLocalValidationError : Except PyError String → Bool
  | Except.error (PyError.assertionError _) => true
  | _ => false

/-- Modelled from the spec: the `Contest` record class imported from the
`api` package (its module is not under src/). Per the spec's data model it
is a flat record "constructed once from a JSON object at response-parsing
time, never mutated", so it is embedded as an opaque wrapper around the
value its constructor received. -/
structure Contest where
  data : Json

/-- Modelled from the spec: the `Problem` record class imported from the
`api` package (not under src/); an opaque wrapper as for `Contest`. -/
structure Problem where
  data : Json

/-- Modelled from the spec: the `RanklistRow` record class imported from
the `api` package (not under src/); an opaque wrapper as for `Contest`. -/
structure RanklistRow where
  data : Json

/-- Python iteration over a parsed JSON value, as forced by
`list(map(ctor, v))`: a dict yields its keys in order, a list its elements,
a string its characters; other values raise `TypeError`. -/
def pyIterElems : Json → Except PyError (List Json)
  | Json.obj fields => Except.ok (fields.map (fun kv => Json.str kv.1))
  | Json.arr elems => Except.ok elems
  | Json.str s => Except.ok (s.toList.map (fun c => Json.str (String.mk [c])))
  | _ => Except.error (PyError.typeError "value is not iterable")

/-- The dictionary `contest_standings` returns. -/
structure StandingsResult where
  contest : List Contest
  problems : List Problem
  rows : List RanklistRow

/-- Embedding of the mapping step of `CodeforcesAPI.contest_standings`,
applied to the payload `data` returned by the envelope check:

    return {'contest': list(map(Contest, data['contest'])),
            'problems': list(map(Problem, data['problems'])),
            'rows': list(map(RanklistRow, data['rows']))}

Each entry subscripts `data`, iterates the value, and applies the record
constructor to every iterated element. -/
def contest_standings_map (data : Json) : Except PyError StandingsResult := do
  let c ← subscript data "contest"
  let citems ← pyIterElems c
  let p ← subscript data "problems"
  let pitems ← pyIterElems p
  let r ← subscript data "rows"
  let ritems ← pyIterElems r
  Except.ok { contest := citems.map Contest.mk,
              problems := pitems.map Problem.mk,
              rows := ritems.map RanklistRow.mk }

/-- Reduction of monadic bind on `Except` at an `ok` value. -/
theorem bindOk {ε α β : Type} (a : α) (f : α → Except ε β) :
    (Except.ok a >>= f : Except ε β) = f a := rfl

/-- Reduction of monadic bind on `Except` at an `error` value. -/
theorem bindError {ε α β : Type} (e : ε) (f : α → Except ε β) :
    (Except.error e >>= f : Except ε β) = Except.error e := rfl

/-- C1: a response body that is an object carrying status "OK" and a result
field X makes the envelope check return exactly X, unchanged. -/
theorem check_json_ok_returns_result (fields : List (String × Json)) (X : Json)
    (hs : dictGet fields "status" = some (Json.str "OK"))
    (hr : dictGet fields "result" = some X) :
    check_json (Json.obj fields) = Except.ok X := by
  simp [check_json, subscript, hs, hr, isOKStatus, bindOk, bindError]

/-- Closed witness for `check_json_ok_returns_result`. -/
theorem check_json_ok_returns_result_witness :
    check_json (Json.obj [("status", Json.str "OK"), ("result", Json.num 7)])
      = Except.ok (Json.num 7) :=
  check_json_ok_returns_result
    [("status", Json.str "OK"), ("result", Json.num 7)] (Json.num 7) rfl rfl

/-- C2: a response body that is an object whose status is present but not
equal to "OK", and that carries a comment c, makes the envelope check raise
`ValueError(c)` — an error whose message is exactly c. -/
theorem check_json_failed_raises_comment (fields : List (String × Json))
    (s c : Json)
    (hs : dictGet fields "status" = some s)
    (hne : s ≠ Json.str "OK")
    (hc : dictGet fields "comment" = some c) :
    check_json (Json.obj fields) = Except.error (PyError.valueError c) := by
  have hok : isOKStatus s = false := by
    cases s with
    | str t =>
      simp only [isOKStatus, beq_eq_false_iff_ne, ne_eq]
      intro h
      exact hne (by rw [h])
    | _ => rfl
  simp [check_json, subscript, hs, hok, hc, bindOk, bindError]

/-- Closed witness for `check_json_failed_raises_comment`. -/
theorem check_json_failed_raises_comment_witness :
    check_json (Json.obj [("status", Json.str "FAILED"), ("comment", Json.str "c")])
      = Except.error (PyError.valueError (Json.str "c")) :=
  check_json_failed_raises_comment
    [("status", Json.str "FAILED"), ("comment", Json.str "c")]
    (Json.str "FAILED") (Json.str "c") rfl (by simp) rfl

/-- C3: each missing envelope field raises the distinct malformed-response
error `ValueError('Missed required field', f)` naming the missing field f:
status absent names "status"; comment absent with status present and not
"OK" names "comment"; result absent with status "OK" names "result". -/
theorem check_json_missing_field (fields : List (String × Json)) :
    (dictGet fields "status" = none →
      check_json (Json.obj fields) = Except.error (PyError.missedField "status"))
  ∧ (∀ s : Json, dictGet fields "status" = some s → s ≠ Json.str "OK" →
      dictGet fields "comment" = none →
      check_json (Json.obj fields) = Except.error (PyError.missedField "comment"))
  ∧ (dictGet fields "status" = some (Json.str "OK") →
      dictGet fields "result" = none →
      check_json (Json.obj fields) = Except.error (PyError.missedField "result")) := by
  refine ⟨?_, ?_, ?_⟩
  · intro hs
    simp [check_json, subscript, hs, bindOk, bindError]
  · intro s hs hne hc
    have hok : isOKStatus s = false := by
      cases s with
      | str t =>
        simp only [isOKStatus, beq_eq_false_iff_ne, ne_eq]
        intro h
        exact hne (by rw [h])
      | _ => rfl
    simp [check_json, subscript, hs, hok, hc, bindOk, bindError]
  · intro hs hr
    simp [check_json, subscript, hs, hr, isOKStatus, bindOk, bindError]

/-- Closed witness for `check_json_missing_field`, exercising all three
missing-field cases. -/
theorem check_json_missing_field_witness :
    check_json (Json.obj [("result", Json.num 1)])
      = Except.error (PyError.missedField "status")
  ∧ check_json (Json.obj [("status", Json.str "FAILED")])
      = Except.error (PyError.missedField "comment")
  ∧ check_json (Json.obj [("status", Json.str "OK")])
      = Except.error (PyError.missedField "result") :=
  ⟨(check_json_missing_field [("result", Json.num 1)]).1 rfl,
   (check_json_missing_field [("status", Json.str "FAILED")]).2.1
     (Json.str "FAILED") rfl (by simp) rfl,
   (check_json_missing_field [("status", Json.str "OK")]).2.2 rfl rfl⟩

/-- C4: URL generation serializes exactly the parameters whose value is not
None — a pair survives `__get_valid_args` precisely when it occurs in the
kwargs with a non-None value, and the generated URL's query part is built
from that filtered list alone, so no key bound to None reaches the query
string. -/
theorem generate_url_omits_none (base method : String)
    (kwargs : List (String × PyValue)) :
    (∀ kv : String × PyValue,
      kv ∈ get_valid_args kwargs ↔ (kv ∈ kwargs ∧ kv.2 ≠ PyValue.none))
  ∧ generate_url base method kwargs
      = (if kwargs.isEmpty then base ++ method
         else base ++ method ++ "?"
           ++ String.intercalate "&"
             (((kwargs.filter (fun kv => decide (kv.2 ≠ PyValue.none))).map
               key_value_to_http_parameter))) := by
  constructor
  · intro kv
    simp [get_valid_args, List.mem_filter]
  · rfl

/-- C5: a list-valued parameter serializes as the elements joined with ";",
and every non-list, non-None value serializes via `str()`. -/
theorem parameter_serialization :
    (∀ (k : String) (xs : List String),
      key_value_to_http_parameter (k, PyValue.strList xs)
        = k ++ "=" ++ String.intercalate ";" xs)
  ∧ (∀ (k : String) (v : PyValue),
      (∀ xs : List String, v ≠ PyValue.strList xs) → v ≠ PyValue.none →
      key_value_to_http_parameter (k, v) = k ++ "=" ++ pyStr v) := by
  constructor
  · intro k xs
    rfl
  · intro k v hlist _
    cases v with
    | strList xs => exact absurd rfl (hlist xs)
    | _ => rfl

/-- Closed witness for `parameter_serialization`: a two-element handle list
and an integer count. -/
theorem parameter_serialization_witness :
    key_value_to_http_parameter ("handles", PyValue.strList ["a", "b"])
      = "handles=a;b"
  ∧ key_value_to_http_parameter ("count", PyValue.int 5) = "count=5" := by
  constructor
  · have h := parameter_serialization.1 "handles" ["a", "b"]
    rw [h]
    rfl
  · have h := parameter_serialization.2 "count" (PyValue.int 5)
      (fun xs hx => by cases hx) (by simp)
    rw [h]
    rfl

/-- C6: `contest_standings` with an integer contest id and a handle list
longer than 10000 raises the length assertion, and the request function
never produces a URL — no network call is made. -/
theorem contest_standings_rejects_long_handle_list (api : CodeforcesAPIClient)
    (cid : Int) (xs : List String) (h : 10000 < xs.length) :
    contest_standings_request api (PyValue.int cid) (PyValue.int 1)
        PyValue.none (PyValue.strList xs)
      = Except.error (PyError.assertionError "No more than 10000 handles is accepted") := by
  have hlen : (xs.length ≤ 10000) = False := by
    simp only [eq_iff_iff, iff_false, not_le]
    exact h
  simp [contest_standings_request, contest_standings_validate,
    isinstance_int, isinstance_list, isNone, pyLen, hlen]

/-- Closed witness for `contest_standings_rejects_long_handle_list`, at
contest id 374 and a 10001-element handle list. -/
theorem contest_standings_rejects_long_handle_list_witness :
    contest_standings_request (CodeforcesAPIClient.mk
        (CodeforcesDataRetriever.mk CodeforcesLanguage.en))
      (PyValue.int 374) (PyValue.int 1) PyValue.none
      (PyValue.strList (List.replicate 10001 "h"))
      = Except.error (PyError.assertionError "No more than 10000 handles is accepted") :=
  contest_standings_rejects_long_handle_list
    (CodeforcesAPIClient.mk (CodeforcesDataRetriever.mk CodeforcesLanguage.en))
    374 (List.replicate 10001 "h") (by rw [List.length_replicate]; decide)

/-- C7 (code behaviour at the failing input): `contest_standings(374)` with
the default `handles=None` passes the type assertions but then evaluates
`len(None)`, which raises `TypeError` — the call does not proceed to the
network with handles omitted, contrary to the documented optionality of
`handles`. -/
theorem contest_standings_default_handles_type_error :
    contest_standings_request (CodeforcesAPIClient.mk
        (CodeforcesDataRetriever.mk CodeforcesLanguage.en))
      (PyValue.int 374) (PyValue.int 1) PyValue.none PyValue.none
      = Except.error (PyError.typeError "object has no len()") := rfl

/-- C8 counterexample: `user_info` with a 10001-element handle list raises
no local validation error; the request reaches the transport and produces
a URL. -/
theorem user_info_long_list_not_rejected :
    isLocalValidationError (user_info_request (CodeforcesAPIClient.mk
        (CodeforcesDataRetriever.mk CodeforcesLanguage.en))
      (PyValue.strList (List.replicate 10001 "h"))) = false
  ∧ user_info_request (CodeforcesAPIClient.mk
        (CodeforcesDataRetriever.mk CodeforcesLanguage.en))
      (PyValue.strList (List.replicate 10001 "h"))
      = Except.ok (generate_url "http://codeforces.com/api/" "user.info"
          [("handles", PyValue.strList (List.replicate 10001 "h"))]) :=
  ⟨rfl, rfl⟩

/-- C8 amended: `user_info` checks only that `handles` is a list; no bound
on its length is validated locally, so every list — of any length, in
particular one exceeding 10000 — passes validation and the request
proceeds to the transport with the generated URL. -/
theorem user_info_has_no_length_check (api : CodeforcesAPIClient)
    (xs : List String) (_h : 10000 < xs.length) :
    isLocalValidationError (user_info_request api (PyValue.strList xs)) = false
  ∧ user_info_request api (PyValue.strList xs)
      = Except.ok (generate_url api.data_retriever.base "user.info"
          [("handles", PyValue.strList xs)]) :=
  ⟨rfl, rfl⟩

/-- Closed witness for `user_info_has_no_length_check`. -/
theorem user_info_has_no_length_check_witness :
    isLocalValidationError (user_info_request (CodeforcesAPIClient.mk
        (CodeforcesDataRetriever.mk CodeforcesLanguage.ru))
      (PyValue.strList (List.replicate 10001 "x"))) = false :=
  (user_info_has_no_length_check
    (CodeforcesAPIClient.mk (CodeforcesDataRetriever.mk CodeforcesLanguage.ru))
    (List.replicate 10001 "x") (by rw [List.length_replicate]; decide)).1

/-- C9 counterexample: the retriever's exposed `language` property setter
does change the per-client language — a retriever constructed with `en`
holds `ru` after `set_language`, so the setting is not immutable. -/
theorem language_setter_mutates_language :
    set_language (CodeforcesDataRetriever.mk CodeforcesLanguage.en)
        (LanguageArg.lang CodeforcesLanguage.ru)
      = Except.ok (CodeforcesDataRetriever.mk CodeforcesLanguage.ru)
  ∧ CodeforcesDataRetriever.mk CodeforcesLanguage.ru
      ≠ CodeforcesDataRetriever.mk CodeforcesLanguage.en :=
  ⟨rfl, by decide⟩

/-- C9 amended: the language is the retriever's only per-client state and
every data-retrieval operation leaves it unchanged — `get_data` returns the
state it was given — but the client does expose one mutating operation,
the `language` setter, which replaces the stored language with its
argument. -/
theorem language_mutable_only_via_setter :
    (∀ (r : CodeforcesDataRetriever) (method : String)
        (kwargs : List (String × PyValue)),
      (get_data_request r method kwargs).2 = r)
  ∧ (∀ (r : CodeforcesDataRetriever) (l : CodeforcesLanguage),
      set_language r (LanguageArg.lang l)
        = Except.ok (CodeforcesDataRetriever.mk l)) :=
  ⟨fun _ _ _ => rfl, fun _ _ => rfl⟩

/-- C10: on a response object whose `contest` field is a single JSON
object and whose `problems` and `rows` fields are arrays, the mapping step
of `contest_standings` builds the `contest` entry as a list with one
`Contest` per iterated element of that object (its keys, in order) — not a
single `Contest` record — while `problems` and `rows` are mapped
element-wise onto `Problem` and `RanklistRow` records. -/
theorem contest_standings_maps_contest_elementwise
    (fields cfields : List (String × Json)) (ps rs : List Json)
    (hc : dictGet fields "contest" = some (Json.obj cfields))
    (hp : dictGet fields "problems" = some (Json.arr ps))
    (hr : dictGet fields "rows" = some (Json.arr rs)) :
    contest_standings_map (Json.obj fields)
      = Except.ok { contest := cfields.map (fun kv => Contest.mk (Json.str kv.1)),
                    problems := ps.map Problem.mk,
                    rows := rs.map RanklistRow.mk } := by
  simp [contest_standings_map, subscript, hc, hp, hr, pyIterElems,
    bindOk, bindError]

/-- Closed witness for `contest_standings_maps_contest_elementwise`: a
response whose single contest object has two keys yields a two-element
`contest` list built from those keys. -/
theorem contest_standings_maps_contest_elementwise_witness :
    contest_standings_map (Json.obj
        [("contest", Json.obj [("id", Json.num 374), ("name", Json.str "n")]),
         ("problems", Json.arr [Json.null]),
         ("rows", Json.arr [])])
      = Except.ok { contest := [Contest.mk (Json.str "id"), Contest.mk (Json.str "name")],
                    problems := [Problem.mk Json.null],
                    rows := [] } :=
  contest_standings_maps_contest_elementwise
    [("contest", Json.obj [("id", Json.num 374), ("name", Json.str "n")]),
     ("problems", Json.arr [Json.null]),
     ("rows", Json.arr [])]
    [("id", Json.num 374), ("name", Json.str "n")]
    [Json.null] [] rfl rfl rfl

end CF
